import Mathlib

/-!
Shallow embedding of the appointment-booking core of the luminance-estetica
backend (FastAPI + SQLAlchemy, `app/` package).

Conventions of the embedding:
* Instants (`datetime` values) are absolute minutes since an epoch that falls
  on a Monday at 00:00, as integers.  A calendar date is its day number
  (minutes divided by 1440, floored); Python's `date.weekday()` (Monday = 0)
  is the day number modulo 7.  Times of day are minutes after midnight.
  Timezone normalisation in the source (`astimezone(timezone.utc)` followed by
  `replace(tzinfo=None)`) is the identity in this representation: every
  embedded instant is already the absolute UTC instant.
* Database tables are lists in insertion order; SQLAlchemy's
  `query(...).filter(p).first()` is `List.find?` with predicate `p`.
* Money amounts (`float` in the source) are rationals.
-/

namespace Luminance

/-- Status of an appointment (`app/models/appointment.py`, `AppointmentStatus`). -/
inductive AppointmentStatus where
  | pending
  | confirmed
  | completed
  | cancelled
deriving DecidableEq, Repr

/-- A row of the `services` table (`app/models/service.py`); only the columns the
booking core reads are kept. -/
structure Service where
  id : Nat
  duration_minutes : Int
  is_active : Bool
deriving DecidableEq, Repr

/-- A row of the `appointments` table (`app/models/appointment.py`). -/
structure Appointment where
  id : Nat
  user_id : Nat
  service_id : Nat
  appointment_date : Int
  status : AppointmentStatus
  cancelled_at : Option Int := none
  cancellation_reason : Option String := none
deriving DecidableEq, Repr

/-- A row of the `availability` table (`app/models/availability.py`): either a
weekly rule (`day_of_week` set) or a date-specific override (`specific_date`
set); `start_time` and `end_time` are nullable in the schema. -/
structure Availability where
  id : Nat
  day_of_week : Option Int := none
  specific_date : Option Int := none
  start_time : Option Int := none
  end_time : Option Int := none
  is_available : Bool := true
deriving DecidableEq, Repr

/-- The relational store, one list per table, in insertion order. -/
structure DB where
  services : List Service
  appointments : List Appointment
  availability : List Availability
deriving Repr

/-- Business settings (`app/core/config.py`, `Settings`): minimum slot
granularity in minutes, advance-notice bounds, and the static
`BUSINESS_DAYS` weekday list. -/
structure Config where
  min_duration : Int
  min_advance_hours : Int
  max_advance_days : Int
  business_days : List Int
deriving Repr

/-- The default business settings of `app/core/config.py` (`BUSINESS_DAYS =
"1,2,3,4,5,6"`, 30-minute granularity, 2-hour minimum and 30-day maximum
advance). -/
def defaultConfig : Config :=
  { min_duration := 30
    min_advance_hours := 2
    max_advance_days := 30
    business_days := [1, 2, 3, 4, 5, 6] }

/-- Day number of an instant (Python `datetime.date()`). -/
def dateOf (dt : Int) : Int := Int.fdiv dt 1440

/-- Minutes after midnight of an instant (Python `datetime.time()`). -/
def timeOf (dt : Int) : Int := Int.emod dt 1440

/-- Python `date.weekday()` for a day number: Monday is 0.  The epoch of the
embedding is a Monday, so this is the day number modulo 7. -/
def weekday (d : Int) : Int := Int.emod d 7

/-- Python truthiness of a booking status being conflict-relevant:
`status in [PENDING, CONFIRMED]` (used by both conflict checks). -/
def isActiveStatus (s : AppointmentStatus) : Bool :=
  s = AppointmentStatus.pending ∨ s = AppointmentStatus.confirmed

/-- SQLAlchemy lookup `db.query(Service).filter(Service.id == sid).first()`. -/
def findService (db : DB) (sid : Nat) : Option Service :=
  db.services.find? (fun s => s.id = sid)

/-- The `Appointment.id != exclude_appointment_id` filter of both conflict
checks.  The source guards it with Python truthiness (`if
exclude_appointment_id:`), so passing `some 0` applies no filter. -/
def keepUnderExclude (excl : Option Nat) (a : Appointment) : Bool :=
  match excl with
  | none => true
  | some e => e = 0 ∨ a.id ≠ e

/-- Embeds `AppointmentService.is_slot_available`
(`app/services/appointment_service.py` lines 78-133): the three-case overlap
query against ALL active appointments, where the end of an existing
appointment is computed as `existing.appointment_date + candidate service
duration`. -/
def is_slot_available (db : DB) (service_id : Nat) (c : Int)
    (excl : Option Nat) : Bool :=
  match findService db service_id with
  | none => false
  | some service =>
    let d := service.duration_minutes
    let end_time := c + d
    let conflicting := db.appointments.find? (fun a =>
      isActiveStatus a.status
      && ((a.appointment_date ≥ c && a.appointment_date < end_time)
          || (a.appointment_date < c && a.appointment_date + d > c)
          || (a.appointment_date ≤ c && a.appointment_date + d ≥ end_time))
      && keepUnderExclude excl a)
    conflicting.isNone

/-- Embeds the route-level `check_slot_availability`
(`app/routes/appointments.py` lines 30-92): same shape, but the query
additionally filters `Appointment.service_id == service_id`, and its three
overlap cases are stated slightly differently. -/
def check_slot_availability (db : DB) (service_id : Nat) (c : Int)
    (excl : Option Nat) : Bool :=
  match findService db service_id with
  | none => false
  | some service =>
    let d := service.duration_minutes
    let end_time := c + d
    let conflicting := db.appointments.find? (fun a =>
      a.service_id = service_id
      && isActiveStatus a.status
      && ((a.appointment_date ≤ c && a.appointment_date + d > c)
          || (a.appointment_date < end_time && a.appointment_date + d ≥ end_time)
          || (a.appointment_date ≥ c && a.appointment_date + d ≤ end_time))
      && keepUnderExclude excl a)
    conflicting.isNone

/-- Embeds `AppointmentService.get_business_hours`
(`app/services/appointment_service.py` lines 43-76): first the date-specific
override lookup, then the weekly lookup whose query already filters
`is_available == True`. -/
def get_business_hours (db : DB) (target_date : Int) :
    Option (Option Int × Option Int) :=
  match db.availability.find? (fun a => a.specific_date = some target_date) with
  | some specific =>
    if !specific.is_available then none
    else some (specific.start_time, specific.end_time)
  | none =>
    match db.availability.find? (fun a =>
        a.day_of_week = some (weekday target_date) && a.is_available) with
    | some regular => some (regular.start_time, regular.end_time)
    | none => none

/-- Embeds `AppointmentService.is_business_day`
(`app/services/appointment_service.py` lines 30-41): membership of the
weekday in the static `BUSINESS_DAYS` config list. -/
def is_business_day (cfg : Config) (target_date : Int) : Bool :=
  cfg.business_days.contains (weekday target_date)

/-- The typed outcome of `AppointmentService.validate_appointment_time`.  The
source returns `(False, message)` with a distinct message string per branch;
each distinct message is one constructor here. -/
inductive RejectReason where
  | serviceNotFound
  | serviceInactive
  | tooSoon
  | tooFar
  | dayOfWeekClosed
  | dateClosed
  | outsideHours
  | beyondClosing
  | slotTaken
deriving DecidableEq, Repr

/-- Result of the validator: `ok` is the source's `(True, "")`, `rejected r`
is `(False, message_r)`, and `timeTypeError` marks the paths on which the
Python code would raise a `TypeError` by comparing a time against a `NULL`
`start_time`/`end_time` column. -/
inductive ValidationResult where
  | ok
  | rejected (r : RejectReason)
  | timeTypeError
deriving DecidableEq, Repr

/-- Embeds `AppointmentService.validate_appointment_time`
(`app/services/appointment_service.py` lines 226-288).  `now` is the explicit
current instant (the source calls `datetime.now()`). -/
def validate_appointment_time (cfg : Config) (db : DB) (now : Int)
    (service_id : Nat) (c : Int) : ValidationResult :=
  match findService db service_id with
  | none => .rejected .serviceNotFound
  | some service =>
    if !service.is_active then .rejected .serviceInactive
    else if c < now + cfg.min_advance_hours * 60 then .rejected .tooSoon
    else if c > now + cfg.max_advance_days * 1440 then .rejected .tooFar
    else
      let appointment_date := dateOf c
      if !is_business_day cfg appointment_date then .rejected .dayOfWeekClosed
      else
        match get_business_hours db appointment_date with
        | none => .rejected .dateClosed
        | some (st?, en?) =>
          match st? with
          | none => .timeTypeError
          | some start_time =>
            let appointment_time := timeOf c
            if appointment_time < start_time then .rejected .outsideHours
            else
              match en? with
              | none => .timeTypeError
              | some end_time =>
                if appointment_time ≥ end_time then .rejected .outsideHours
                else
                  let appointment_end := c + service.duration_minutes
                  let closing_time := appointment_date * 1440 + end_time
                  if appointment_end > closing_time then .rejected .beyondClosing
                  else if !is_slot_available db service_id c none then
                    .rejected .slotTaken
                  else .ok

/-- The auto-cancellation reason written by the sweeper
(`app/services/scheduler_service.py` line 29). -/
def autoCancelReason : String := "Cancelado automáticamente por no confirmar"

/-- First bulk UPDATE of `update_appointments_status`
(`app/services/scheduler_service.py` lines 22-32), applied row-wise:
`PENDING` strictly before `now` becomes `CANCELLED` with reason and
timestamp. -/
def sweepPending (now : Int) (a : Appointment) : Appointment :=
  if a.status = .pending ∧ a.appointment_date < now then
    { a with
        status := .cancelled
        cancelled_at := some now
        cancellation_reason := some autoCancelReason }
  else a

/-- Second bulk UPDATE of `update_appointments_status`
(`app/services/scheduler_service.py` lines 35-41), applied row-wise:
`CONFIRMED` strictly before `now` becomes `COMPLETED`. -/
def sweepConfirmed (now : Int) (a : Appointment) : Appointment :=
  if a.status = .confirmed ∧ a.appointment_date < now then
    { a with status := .completed }
  else a

/-- Embeds `update_appointments_status` (`app/services/scheduler_service.py`
lines 9-52): the two bulk UPDATEs run in order inside one commit. -/
def update_appointments_status (now : Int) (appointments : List Appointment) :
    List Appointment :=
  (appointments.map (sweepPending now)).map (sweepConfirmed now)

/-- The slot loop of `AppointmentService.get_available_slots`
(`app/services/appointment_service.py` lines 165-184): starting at `current`,
emit `(start, start + d)` while `start + d ≤ close`, advancing by `step`.
The guard also requires `0 < d` and `0 < step` so the function is total; with
the model invariants (positive service duration, positive granularity) this
matches the source loop, which does not terminate for `step ≤ 0`. -/
def generate_slots (d step close : Int) (current : Int) : List (Int × Int) :=
  if _h : 0 < d ∧ 0 < step ∧ current + d ≤ close then
    (current, current + d) :: generate_slots d step close (current + step)
  else []
termination_by (close - current).toNat
decreasing_by
  simp_wf
  omega

/-- Embeds `AppointmentService.get_available_slots`
(`app/services/appointment_service.py` lines 135-184): service lookup,
business-hours lookup, then the slot loop with the availability flag of each
emitted slot.  A business-hours row with a `NULL` time yields `none`
(the Python `datetime.combine` would raise a `TypeError`). -/
def get_available_slots (cfg : Config) (db : DB) (service_id : Nat)
    (target_date : Int) : Option (List (Int × Int × Bool)) :=
  match findService db service_id with
  | none => some []
  | some service =>
    if !service.is_active then some []
    else
      match get_business_hours db target_date with
      | none => some []
      | some (some st, some en) =>
        let open_dt := target_date * 1440 + st
        let close_dt := target_date * 1440 + en
        some ((generate_slots service.duration_minutes cfg.min_duration
            close_dt open_dt).map
          (fun w => (w.1, w.2, is_slot_available db service_id w.1 none)))
      | some _ => none

/-- Discount type of a coupon (`app/models/coupon.py`, `DiscountType`). -/
inductive DiscountType where
  | percentage
  | fixed_amount
deriving DecidableEq, Repr

/-- The coupon columns read by the discount calculator
(`app/models/coupon.py`). -/
structure Coupon where
  discount_type : DiscountType
  discount_value : ℚ
  min_purchase_amount : ℚ
deriving DecidableEq, Repr

/-- Embeds `Coupon.calculate_discount` (`app/models/coupon.py` lines
146-168): zero below the minimum-purchase threshold, percentage or fixed
amount otherwise, capped at the original amount. -/
def calculate_discount (coupon : Coupon) (original_amount : ℚ) : ℚ :=
  if original_amount < coupon.min_purchase_amount then 0
  else
    let discount :=
      if coupon.discount_type = DiscountType.percentage then
        original_amount * (coupon.discount_value / 100)
      else coupon.discount_value
    min discount original_amount

/-- Embeds `Coupon.apply_discount` (`app/models/coupon.py` lines 170-181). -/
def apply_discount (coupon : Coupon) (original_amount : ℚ) : ℚ :=
  max 0 (original_amount - calculate_discount coupon original_amount)

/-- Appending a new `PENDING` appointment, as `create_appointment`
(`app/routes/appointments.py` lines 168-177) does with `db.add` +
`db.commit`: the `appointments` table has no uniqueness or exclusion
constraint on `appointment_date`, so the insert is unconditional. -/
def insertPendingAppointment (db : DB) (newId uid sid : Nat) (c : Int) : DB :=
  { db with
      appointments := db.appointments ++
        [{ id := newId, user_id := uid, service_id := sid,
           appointment_date := c, status := .pending }] }

/-- Two concurrent `create_appointment` requests for the identical slot,
interleaved so that both availability pre-checks (`app/routes/appointments.py`
line 157) run before either insert commits (lines 176-177).  Returns each
request's success flag and the final store. -/
def concurrent_identical_requests (db : DB) (sid : Nat) (c : Int)
    (uid1 uid2 id1 id2 : Nat) : Bool × Bool × DB :=
  let ok1 := check_slot_availability db sid c none
  let ok2 := check_slot_availability db sid c none
  let db1 := if ok1 then insertPendingAppointment db id1 uid1 sid c else db
  let db2 := if ok2 then insertPendingAppointment db1 id2 uid2 sid c else db1
  (ok1, ok2, db2)

/-- Spec-side conflict predicate, for comparison with the code: some active
(pending or confirmed) stored booking's half-open interval
`[existing.start, existing.start + existing_service_duration)` overlaps the
candidate's `[c, c + candidate_service_duration)`, each booking's end using
its OWN service's duration. -/
def overlapping_active_exists (db : DB) (service_id : Nat) (c : Int) : Bool :=
  match findService db service_id with
  | none => false
  | some service =>
    db.appointments.any (fun a =>
      isActiveStatus a.status
      && match findService db a.service_id with
         | some es =>
           decide (c < a.appointment_date + es.duration_minutes
             ∧ a.appointment_date < c + service.duration_minutes)
         | none => false)

/-- Spec-side Business-Hours Resolver, following §4.1 of the spec word for
word: look up the override for the date and use it regardless of the weekly
rule; otherwise look up THE weekly rule for the weekday and report closed if
it is absent or its availability flag is false. -/
def resolve_spec (db : DB) (target_date : Int) :
    Option (Option Int × Option Int) :=
  match db.availability.find? (fun a => a.specific_date = some target_date) with
  | some specific =>
    if !specific.is_available then none
    else some (specific.start_time, specific.end_time)
  | none =>
    match db.availability.find? (fun a =>
        a.day_of_week = some (weekday target_date)) with
    | some regular =>
      if !regular.is_available then none
      else some (regular.start_time, regular.end_time)
    | none => none

section ConcreteStates

/-- Store for the C1 counterexample: a 60-minute service 1 and a 30-minute
service 2, with one pending booking of service 2 at minute 600
(10:00 of day 0), so its real interval is `[600, 630)`. -/
def dbDurMismatch : DB :=
  { services := [⟨1, 60, true⟩, ⟨2, 30, true⟩]
    appointments := [{ id := 1, user_id := 1, service_id := 2,
                       appointment_date := 600, status := .pending }]
    availability := [] }

/-- Store for the C2 counterexample: two 60-minute services and one pending
booking of service 2 at minute 600. -/
def dbTwoServices : DB :=
  { services := [⟨1, 60, true⟩, ⟨2, 60, true⟩]
    appointments := [{ id := 1, user_id := 1, service_id := 2,
                       appointment_date := 600, status := .pending }]
    availability := [] }

/-- Store with a single 60-minute active service and no bookings. -/
def dbEmptyCalendar : DB :=
  { services := [⟨1, 60, true⟩]
    appointments := []
    availability := [] }

/-- Store with a weekly Tuesday rule (09:00-20:00, open) and a date-specific
override that closes day 1 (a Tuesday) entirely. -/
def dbOverrideClosesTuesday : DB :=
  { services := [⟨1, 60, true⟩]
    appointments := []
    availability :=
      [{ id := 1, day_of_week := some 1, start_time := some 540,
         end_time := some 1200, is_available := true },
       { id := 2, specific_date := some 1, is_available := false }] }

end ConcreteStates

/-- Helper: a SQLAlchemy `first()` lookup finds a row iff some row satisfies
the filter. -/
theorem find?_isNone_eq_false_iff {α : Type} (l : List α) (p : α → Bool) :
    (l.find? p).isNone = false ↔ ∃ a ∈ l, p a = true := by
  rw [Bool.eq_false_iff, Ne, Option.isNone_iff_eq_none, List.find?_eq_none]
  push_neg
  simp

/-- C1 counterexample: service 1 lasts 60 minutes, the stored pending booking
is for the 30-minute service 2 at minute 600, so its half-open interval is
`[600, 630)` and does not overlap the candidate `[645, 705)`; yet
`is_slot_available` reports a conflict (returns `false`), because it computes
the existing booking's end with the CANDIDATE service's 60-minute duration. -/
theorem c1_slot_conflict_counterexample :
    is_slot_available dbDurMismatch 1 645 none = false
      ∧ overlapping_active_exists dbDurMismatch 1 645 = false := by
  constructor <;> rfl

/-- C1 amended: with the candidate's service present and of positive
duration, `is_slot_available` reports a conflict iff some active stored
booking overlaps the candidate when the EXISTING booking's end is computed
with the candidate service's duration `d`: conflict iff
`existing.start < c + d` and `c < existing.start + d`. -/
theorem c1_slot_conflict_amended (db : DB) (sid : Nat) (c : Int)
    (s : Service) (hs : findService db sid = some s)
    (hd : 0 < s.duration_minutes) :
    is_slot_available db sid c none = false
      ↔ ∃ a ∈ db.appointments, isActiveStatus a.status
          ∧ a.appointment_date < c + s.duration_minutes
          ∧ c < a.appointment_date + s.duration_minutes := by
  unfold is_slot_available
  rw [hs]
  simp only [find?_isNone_eq_false_iff, keepUnderExclude, Bool.and_true,
    Bool.and_eq_true, Bool.or_eq_true, decide_eq_true_eq]
  constructor
  · rintro ⟨a, ha, hact, hcase⟩
    exact ⟨a, ha, hact, by omega⟩
  · rintro ⟨a, ha, hact, h1, h2⟩
    exact ⟨a, ha, hact, by omega⟩

/-- Witness for the C1 amended theorem at the two-service store and candidate
minute 600. -/
theorem c1_slot_conflict_amended_witness :
    0 < (60 : Int)
      ∧ (is_slot_available dbTwoServices 1 600 none = false
        ↔ ∃ a ∈ dbTwoServices.appointments, isActiveStatus a.status
            ∧ a.appointment_date < 600 + 60
            ∧ 600 < a.appointment_date + 60) :=
  ⟨by decide,
   c1_slot_conflict_amended dbTwoServices 1 600 ⟨1, 60, true⟩ rfl (by decide)⟩

/-- C2 counterexample: the pending booking of service 2 occupies `[600, 660)`,
which overlaps the candidate `[600, 660)` for service 1, yet the route-level
`check_slot_availability` reports the slot free because its query filters
`Appointment.service_id == service_id`. -/
theorem c2_studio_wide_counterexample :
    check_slot_availability dbTwoServices 1 600 none = true
      ∧ overlapping_active_exists dbTwoServices 1 600 = true := by
  constructor <;> rfl

/-- C2 amended: the route-level conflict check is scoped per service — a
stored booking for a different service never affects the outcome, whatever
its time or status. -/
theorem c2_conflict_scope_amended (db : DB) (sid : Nat) (c : Int)
    (excl : Option Nat) (a : Appointment) (hne : a.service_id ≠ sid) :
    check_slot_availability { db with appointments := a :: db.appointments }
        sid c excl
      = check_slot_availability db sid c excl := by
  unfold check_slot_availability
  have hsv : findService { db with appointments := a :: db.appointments } sid
      = findService db sid := rfl
  rw [hsv]
  cases hfs : findService db sid with
  | none => rfl
  | some s =>
    simp only []
    rw [List.find?_cons_of_neg]
    simp only [Bool.and_eq_true, decide_eq_true_eq]
    rintro ⟨⟨heq, -⟩, -⟩
    exact hne heq.1

/-- Witness for the C2 amended theorem: adding a service-2 booking to the
empty calendar does not change the service-1 availability answer. -/
theorem c2_conflict_scope_amended_witness :
    (2 : Nat) ≠ 1
      ∧ check_slot_availability
          { dbEmptyCalendar with
              appointments :=
                { id := 7, user_id := 3, service_id := 2,
                  appointment_date := 600,
                  status := AppointmentStatus.pending }
                  :: dbEmptyCalendar.appointments } 1 600 none
        = check_slot_availability dbEmptyCalendar 1 600 none :=
  ⟨by decide,
   c2_conflict_scope_amended dbEmptyCalendar 1 600 none
     { id := 7, user_id := 3, service_id := 2, appointment_date := 600,
       status := AppointmentStatus.pending } (by decide)⟩

/-- C10: when the referenced service id does not exist in the store, both
slot-availability checks return `false` (slot reported unavailable), for
every candidate instant and exclusion argument, and no error is raised. -/
theorem c10_missing_service_unavailable (db : DB) (sid : Nat) (c : Int)
    (excl : Option Nat) (h : findService db sid = none) :
    is_slot_available db sid c excl = false
      ∧ check_slot_availability db sid c excl = false := by
  refine ⟨?_, ?_⟩
  · unfold is_slot_available
    rw [h]
  · unfold check_slot_availability
    rw [h]

/-- Witness for C10 at service id 5, absent from the single-service store. -/
theorem c10_missing_service_unavailable_witness :
    findService dbEmptyCalendar 5 = none
      ∧ is_slot_available dbEmptyCalendar 5 600 none = false
      ∧ check_slot_availability dbEmptyCalendar 5 600 none = false :=
  ⟨rfl,
   (c10_missing_service_unavailable dbEmptyCalendar 5 600 none rfl).1,
   (c10_missing_service_unavailable dbEmptyCalendar 5 600 none rfl).2⟩

/-- Store whose only availability row is a date-specific override OPENING day
0 (a Monday, 09:00-20:00), a weekday the static `BUSINESS_DAYS` config
closes. -/
def dbMondayOverride : DB :=
  { services := [⟨1, 60, true⟩]
    appointments := []
    availability := [{ id := 1, specific_date := some 0,
                       start_time := some 540, end_time := some 1200,
                       is_available := true }] }

/-- C3 counterexample: the Business-Hours Resolver reports day 0 OPEN
(09:00-20:00 by the date-specific override), yet the validator rejects a
request for minute 600 of that day as "the studio does not attend this
weekday", because `is_business_day` consults the static `BUSINESS_DAYS`
config before the resolver is ever called. -/
theorem c3_day_closed_counterexample :
    get_business_hours dbMondayOverride 0 = some (some 540, some 1200)
      ∧ validate_appointment_time defaultConfig dbMondayOverride 0 1 600
        = ValidationResult.rejected RejectReason.dayOfWeekClosed := by
  constructor <;> rfl

/-- C3 amended: for a found, active service and a request within the advance
window, the validator rejects for a closed day iff the requested date's
weekday is missing from the static `BUSINESS_DAYS` config OR the resolver
reports the date closed; an override that opens a weekday outside that config
list is therefore still rejected. -/
theorem c3_day_closed_amended (cfg : Config) (db : DB) (now : Int)
    (sid : Nat) (c : Int) (s : Service)
    (hs : findService db sid = some s) (ha : s.is_active = true)
    (hmin : now + cfg.min_advance_hours * 60 ≤ c)
    (hmax : c ≤ now + cfg.max_advance_days * 1440) :
    (validate_appointment_time cfg db now sid c
        = ValidationResult.rejected RejectReason.dayOfWeekClosed
      ∨ validate_appointment_time cfg db now sid c
        = ValidationResult.rejected RejectReason.dateClosed)
      ↔ (is_business_day cfg (dateOf c) = false
        ∨ get_business_hours db (dateOf c) = none) := by
  unfold validate_appointment_time
  rw [hs]
  simp only [ha, Bool.not_true, if_false]
  rw [if_neg (by omega : ¬ c < now + cfg.min_advance_hours * 60),
    if_neg (by omega : ¬ c > now + cfg.max_advance_days * 1440)]
  cases hbd : is_business_day cfg (dateOf c) with
  | false => simp
  | true =>
    simp only [Bool.not_true, if_false]
    cases hbh : get_business_hours db (dateOf c) with
    | none => simp
    | some w =>
      obtain ⟨st?, en?⟩ := w
      simp only []
      constructor
      · intro h
        exfalso
        cases st? with
        | none => rcases h with h | h <;> simp at h
        | some st =>
          cases en? with
          | none =>
            rcases h with h | h <;> simp only [] at h <;>
              split_ifs at h <;> simp at h
          | some en =>
            rcases h with h | h <;> simp only [] at h <;>
              split_ifs at h <;> simp at h
      · rintro (h | h) <;> simp at h

/-- Witness for the C3 amended theorem: on day 1 (a Tuesday, inside the
default `BUSINESS_DAYS`), with no availability rows, the validator's
day-closed rejection coincides with the resolver reporting closed. -/
theorem c3_day_closed_amended_witness :
    0 + defaultConfig.min_advance_hours * 60 ≤ 2040
      ∧ 2040 ≤ 0 + defaultConfig.max_advance_days * 1440
      ∧ ((validate_appointment_time defaultConfig dbEmptyCalendar 0 1 2040
          = ValidationResult.rejected RejectReason.dayOfWeekClosed
        ∨ validate_appointment_time defaultConfig dbEmptyCalendar 0 1 2040
          = ValidationResult.rejected RejectReason.dateClosed)
        ↔ (is_business_day defaultConfig (dateOf 2040) = false
          ∨ get_business_hours dbEmptyCalendar (dateOf 2040) = none)) :=
  ⟨by decide, by decide,
   c3_day_closed_amended defaultConfig dbEmptyCalendar 0 1 2040 ⟨1, 60, true⟩
     rfl rfl (by decide) (by decide)⟩

/-- Helper for C4: when at most one availability row carries a given
day-of-week, the code's weekly lookup (filtering `is_available == True`
inside the query) agrees with the spec's lookup (find the weekly rule, then
report closed when its flag is false). -/
theorem weekly_lookup_agrees (l : List Availability) (w : Int)
    (hu : (l.filter (fun a => a.day_of_week = some w)).length ≤ 1) :
    (match l.find? (fun a => a.day_of_week = some w && a.is_available) with
      | some a => some (a.start_time, a.end_time)
      | none => (none : Option (Option Int × Option Int)))
    = (match l.find? (fun a => a.day_of_week = some w) with
      | some a =>
        if !a.is_available then none else some (a.start_time, a.end_time)
      | none => none) := by
  induction l with
  | nil => rfl
  | cons hd tl ih =>
    by_cases hw : hd.day_of_week = some w
    · by_cases hav : hd.is_available = true
      · rw [List.find?_cons_of_pos _ (by simp [hw, hav]),
          List.find?_cons_of_pos _ (by simp [hw])]
        simp [hav]
      · rw [List.find?_cons_of_neg _ (by simp [hav]),
          List.find?_cons_of_pos _ (by simp [hw])]
        have hnil : tl.filter (fun a => a.day_of_week = some w) = [] := by
          rw [List.filter_cons_of_pos (by simp [hw])] at hu
          simp only [List.length_cons] at hu
          exact List.length_eq_zero.mp (by omega)
        have htl : tl.find?
            (fun a => a.day_of_week = some w && a.is_available) = none := by
          rw [List.find?_eq_none]
          intro x hx
          have hxw : ¬ (x.day_of_week = some w) := by
            intro hxw
            have : x ∈ tl.filter (fun a => a.day_of_week = some w) :=
              List.mem_filter.mpr ⟨hx, by simp [hxw]⟩
            rw [hnil] at this
            exact absurd this (List.not_mem_nil x)
          simp [hxw]
        rw [htl]
        simp [hav]
    · rw [List.find?_cons_of_neg _ (by simp [hw]),
        List.find?_cons_of_neg _ (by simp [hw])]
      apply ih
      rwa [List.filter_cons_of_neg (by simp [hw])] at hu

/-- C4: under the data-model invariant that at most one weekly rule exists
for the requested date's day-of-week, `get_business_hours` coincides with
the spec's Business-Hours Resolver: a date-specific override's window wins
(closed when its flag is false) ignoring any weekly rule, otherwise the
weekly rule's window when present with availability true, otherwise closed;
no input is an error. -/
theorem c4_resolver_confirmed (db : DB) (d : Int)
    (hu : (db.availability.filter
        (fun a => a.day_of_week = some (weekday d))).length ≤ 1) :
    get_business_hours db d = resolve_spec db d := by
  unfold get_business_hours resolve_spec
  cases ho : db.availability.find? (fun a => a.specific_date = some d) with
  | some a => rfl
  | none => exact weekly_lookup_agrees db.availability (weekday d) hu

/-- Witness for C4: a weekly Tuesday rule open 09:00-20:00 plus an override
closing day 1 entirely — the resolver reports day 1 closed. -/
theorem c4_resolver_confirmed_witness :
    ((dbOverrideClosesTuesday.availability.filter
        (fun a => a.day_of_week = some (weekday 1))).length ≤ 1)
      ∧ get_business_hours dbOverrideClosesTuesday 1
        = resolve_spec dbOverrideClosesTuesday 1
      ∧ get_business_hours dbOverrideClosesTuesday 1 = none :=
  ⟨by decide, c4_resolver_confirmed dbOverrideClosesTuesday 1 (by decide),
   by decide⟩

/-- C5 counterexample: on an empty calendar, two concurrent requests for the
identical slot (service 1, minute 600) interleave so both pre-checks run
before either insert; BOTH succeed and the final store holds two active
bookings at the same instant — not "exactly one succeeds". -/
theorem c5_concurrent_counterexample :
    (concurrent_identical_requests dbEmptyCalendar 1 600 1 2 10 11).1 = true
      ∧ (concurrent_identical_requests dbEmptyCalendar 1 600 1 2 10 11).2.1
        = true
      ∧ 2 ≤ ((concurrent_identical_requests dbEmptyCalendar 1 600 1 2 10
          11).2.2.appointments.filter
            (fun a => a.appointment_date = 600 && isActiveStatus a.status)).length := by
  refine ⟨rfl, rfl, by decide⟩

/-- C5 amended: the conflict check runs only as a pre-check before the
insert, with no storage-layer constraint or in-transaction re-check; hence
whenever a slot passes the pre-check, the interleaving in which both
identical requests pre-check before either commits makes BOTH succeed,
leaving at least two active bookings at that instant. -/
theorem c5_precheck_only_amended (db : DB) (sid : Nat) (c : Int)
    (uid1 uid2 id1 id2 : Nat)
    (h : check_slot_availability db sid c none = true) :
    (concurrent_identical_requests db sid c uid1 uid2 id1 id2).1 = true
      ∧ (concurrent_identical_requests db sid c uid1 uid2 id1 id2).2.1 = true
      ∧ 2 ≤ ((concurrent_identical_requests db sid c uid1 uid2 id1
          id2).2.2.appointments.filter
            (fun a => a.appointment_date = c && isActiveStatus a.status)).length := by
  unfold concurrent_identical_requests insertPendingAppointment
  refine ⟨?_, ?_, ?_⟩
  · simp [h]
  · simp [h]
  · simp only [h, if_true, List.filter_append, List.length_append]
    simp [isActiveStatus]

/-- Witness for the C5 amended theorem on the empty calendar. -/
theorem c5_precheck_only_amended_witness :
    check_slot_availability dbEmptyCalendar 1 600 none = true
      ∧ ((concurrent_identical_requests dbEmptyCalendar 1 600 3 4 20 21).1
          = true
        ∧ (concurrent_identical_requests dbEmptyCalendar 1 600 3 4 20 21).2.1
          = true
        ∧ 2 ≤ ((concurrent_identical_requests dbEmptyCalendar 1 600 3 4 20
            21).2.2.appointments.filter
              (fun a => a.appointment_date = 600 && isActiveStatus a.status)).length) :=
  ⟨rfl, c5_precheck_only_amended dbEmptyCalendar 1 600 3 4 20 21 rfl⟩

/-- One row of the sweeper pass, both bulk updates composed. -/
theorem sweep_row_idem (now : Int) (a : Appointment) :
    sweepConfirmed now (sweepPending now (sweepConfirmed now
        (sweepPending now a)))
      = sweepConfirmed now (sweepPending now a) := by
  unfold sweepPending sweepConfirmed
  rcases a with ⟨i, u, s, dt, st, ca, cr⟩
  cases st <;> split_ifs <;> simp_all

/-- C6: the Status Sweeper is idempotent — running
`update_appointments_status` twice with the same `now` equals running it
once, on every store and every instant. -/
theorem c6_sweeper_idempotent (now : Int) (l : List Appointment) :
    update_appointments_status now (update_appointments_status now l)
      = update_appointments_status now l := by
  unfold update_appointments_status
  induction l with
  | nil => rfl
  | cons a tl ih =>
    simp only [List.map_cons]
    rw [sweep_row_idem]
    exact congrArg _ ih

/-- Membership in the slot loop's output: exactly the windows whose start is
`current` plus a whole number of steps and whose end fits before `close`. -/
theorem generate_slots_mem (d s close : Int) (current : Int) (w : Int × Int)
    (hd : 0 < d) (hs : 0 < s) :
    w ∈ generate_slots d s close current
      ↔ ∃ k : ℕ, w.1 = current + k * s ∧ w.2 = w.1 + d ∧ w.1 + d ≤ close := by
  induction current using generate_slots.induct d s close with
  | case1 current h ih =>
    rw [generate_slots, dif_pos h]
    constructor
    · intro hw
      rcases List.mem_cons.mp hw with hw | hw
      · subst hw
        exact ⟨0, by simp, rfl, h.2.2⟩
      · obtain ⟨k, hk1, hk2, hk3⟩ := ih.mp hw
        refine ⟨k + 1, ?_, hk2, hk3⟩
        rw [hk1]
        push_cast
        ring
    · rintro ⟨k, hk1, hk2, hk3⟩
      cases k with
      | zero =>
        simp only [Nat.cast_zero, zero_mul, add_zero] at hk1
        rcases w with ⟨w1, w2⟩
        simp only at hk1 hk2
        subst hk1
        subst hk2
        exact List.mem_cons_self _ _
      | succ j =>
        apply List.mem_cons_of_mem
        apply ih.mpr
        refine ⟨j, ?_, hk2, hk3⟩
        rw [hk1]
        push_cast
        ring
  | case2 current h =>
    rw [generate_slots, dif_neg h]
    simp only [List.not_mem_nil, false_iff, not_exists]
    rintro k ⟨hk1, hk2, hk3⟩
    have hks : 0 ≤ (k : Int) * s := by positivity
    omega

/-- Every emitted slot starts at or after the loop's current position. -/
theorem generate_slots_lower_bound (d s close : Int) (current : Int) :
    ∀ w ∈ generate_slots d s close current, current ≤ w.1 := by
  induction current using generate_slots.induct d s close with
  | case1 current h ih =>
    rw [generate_slots, dif_pos h]
    rintro w hw
    rcases List.mem_cons.mp hw with hw | hw
    · subst hw
      exact le_refl _
    · have := ih w hw
      omega
  | case2 current h =>
    rw [generate_slots, dif_neg h]
    rintro w hw
    exact absurd hw (List.not_mem_nil w)

/-- The emitted slots are in strictly increasing start-time order. -/
theorem generate_slots_sorted (d s close : Int) (current : Int) :
    (generate_slots d s close current).Pairwise (fun w1 w2 => w1.1 < w2.1) := by
  induction current using generate_slots.induct d s close with
  | case1 current h ih =>
    rw [generate_slots, dif_pos h]
    refine List.pairwise_cons.mpr ⟨?_, ih⟩
    intro w hw
    have := generate_slots_lower_bound d s close (current + s) w hw
    have hs : 0 < s := h.2.1
    simp only
    omega
  | case2 current h =>
    rw [generate_slots, dif_neg h]
    exact List.Pairwise.nil

/-- C7: for positive duration and step, the slot loop emits exactly the
windows `[start, start + duration)` with `start = open + k * step` and
`start + duration ≤ close`, in strictly increasing start order (the output
list is finite by construction), and it is empty when the duration alone
exceeds the open-to-close window. -/
theorem c7_slot_generator_confirmed (openT close d s : Int)
    (hd : 0 < d) (hs : 0 < s) :
    (∀ w, w ∈ generate_slots d s close openT
      ↔ ∃ k : ℕ, w.1 = openT + k * s ∧ w.2 = w.1 + d ∧ w.1 + d ≤ close)
    ∧ (generate_slots d s close openT).Pairwise (fun w1 w2 => w1.1 < w2.1)
    ∧ (close < openT + d → generate_slots d s close openT = []) := by
  refine ⟨fun w => generate_slots_mem d s close openT w hd hs,
    generate_slots_sorted d s close openT, fun hlt => ?_⟩
  rw [generate_slots, dif_neg]
  omega

/-- Witness for C7 at the spec's running example: 09:00-20:00 window,
60-minute service, 30-minute step. -/
theorem c7_slot_generator_confirmed_witness :
    0 < (60 : Int) ∧ 0 < (30 : Int)
      ∧ ((∀ w, w ∈ generate_slots 60 30 1200 540
          ↔ ∃ k : ℕ, w.1 = 540 + k * 30 ∧ w.2 = w.1 + 60 ∧ w.1 + 60 ≤ 1200)
        ∧ (generate_slots 60 30 1200 540).Pairwise (fun w1 w2 => w1.1 < w2.1)
        ∧ ((1200 : Int) < 540 + 60 → generate_slots 60 30 1200 540 = [])) :=
  ⟨by decide, by decide, c7_slot_generator_confirmed 540 1200 60 30
    (by decide) (by decide)⟩

/-- The fixed-amount coupon of value 5000 with no minimum purchase, from the
spec's test case. -/
def fixedCoupon5000 : Coupon :=
  { discount_type := DiscountType.fixed_amount
    discount_value := 5000
    min_purchase_amount := 0 }

/-- C8: for every coupon with a nonnegative discount value and every
nonnegative purchase amount, the discount lies between 0 and the amount and
applying the coupon subtracts exactly the discount; in particular the
fixed-amount coupon of value 5000 on amount 3000 gives discount 3000 and
final amount 0. -/
theorem c8_coupon_discount_confirmed (coupon : Coupon) (amount : ℚ)
    (hamt : 0 ≤ amount) (hval : 0 ≤ coupon.discount_value) :
    0 ≤ calculate_discount coupon amount
      ∧ calculate_discount coupon amount ≤ amount
      ∧ apply_discount coupon amount
        = amount - calculate_discount coupon amount
      ∧ calculate_discount fixedCoupon5000 3000 = 3000
      ∧ apply_discount fixedCoupon5000 3000 = 0 := by
  have hlo : 0 ≤ calculate_discount coupon amount := by
    unfold calculate_discount
    split_ifs with h1 h2
    · exact le_refl 0
    · have : 0 ≤ amount * (coupon.discount_value / 100) := by positivity
      exact le_min this hamt
    · exact le_min hval hamt
  have hhi : calculate_discount coupon amount ≤ amount := by
    unfold calculate_discount
    split_ifs with h1 h2
    · exact hamt
    · exact min_le_right _ _
    · exact min_le_right _ _
  have happ : apply_discount coupon amount
      = amount - calculate_discount coupon amount := by
    unfold apply_discount
    exact max_eq_right (by linarith)
  have hfix : calculate_discount fixedCoupon5000 3000 = 3000 := by
    unfold calculate_discount fixedCoupon5000
    rw [if_neg (by norm_num : ¬ (3000 : ℚ) < 0)]
    simp only []
    rw [if_neg (by decide :
      ¬ DiscountType.fixed_amount = DiscountType.percentage)]
    norm_num [min_def]
  refine ⟨hlo, hhi, happ, hfix, ?_⟩
  unfold apply_discount
  rw [hfix]
  norm_num

/-- Witness for C8 at the spec's test case (coupon value 5000, amount
3000). -/
theorem c8_coupon_discount_confirmed_witness :
    0 ≤ (3000 : ℚ) ∧ 0 ≤ fixedCoupon5000.discount_value
      ∧ (0 ≤ calculate_discount fixedCoupon5000 3000
        ∧ calculate_discount fixedCoupon5000 3000 ≤ 3000
        ∧ apply_discount fixedCoupon5000 3000
          = 3000 - calculate_discount fixedCoupon5000 3000
        ∧ calculate_discount fixedCoupon5000 3000 = 3000
        ∧ apply_discount fixedCoupon5000 3000 = 0) :=
  ⟨by norm_num, by norm_num [fixedCoupon5000],
   c8_coupon_discount_confirmed fixedCoupon5000 3000 (by norm_num)
     (by norm_num [fixedCoupon5000])⟩

/-- C9: with the requested service present and active, a request strictly
earlier than `now` plus the minimum advance is rejected with the "too soon"
reason, and a request exactly at `now` plus the minimum advance is never
rejected with that reason. -/
theorem c9_advance_notice_boundary (cfg : Config) (db : DB) (now : Int)
    (sid : Nat) (c : Int) (s : Service)
    (hs : findService db sid = some s) (ha : s.is_active = true) :
    (c < now + cfg.min_advance_hours * 60 →
      validate_appointment_time cfg db now sid c
        = ValidationResult.rejected RejectReason.tooSoon)
    ∧ (c = now + cfg.min_advance_hours * 60 →
      validate_appointment_time cfg db now sid c
        ≠ ValidationResult.rejected RejectReason.tooSoon) := by
  unfold validate_appointment_time
  rw [hs]
  simp only [ha, Bool.not_true, Bool.false_eq_true, if_false]
  constructor
  · intro hlt
    rw [if_pos hlt]
  · intro heq
    rw [if_neg (by omega : ¬ c < now + cfg.min_advance_hours * 60)]
    by_cases hmax : c > now + cfg.max_advance_days * 1440
    · rw [if_pos hmax]
      simp
    · rw [if_neg hmax]
      by_cases hbd : (!is_business_day cfg (dateOf c)) = true
      · rw [if_pos hbd]
        simp
      · rw [if_neg hbd]
        cases hgb : get_business_hours db (dateOf c) with
        | none => simp
        | some w =>
          obtain ⟨st?, en?⟩ := w
          cases st? with
          | none => simp
          | some st =>
            simp only []
            by_cases h3 : timeOf c < st
            · rw [if_pos h3]
              simp
            · rw [if_neg h3]
              cases en? with
              | none => simp
              | some en =>
                simp only []
                by_cases h4 : timeOf c ≥ en
                · rw [if_pos h4]
                  simp
                · rw [if_neg h4]
                  by_cases h5 : c + s.duration_minutes
                      > dateOf c * 1440 + en
                  · rw [if_pos h5]
                    simp
                  · rw [if_neg h5]
                    by_cases h6 : (!is_slot_available db sid c none) = true
                    · rw [if_pos h6]
                      simp
                    · rw [if_neg h6]
                      simp

/-- Witness for C9 with the default settings: two-hour minimum advance, a
request at exactly minute 120 from `now = 0`. -/
theorem c9_advance_notice_boundary_witness :
    ((120 : Int) < 0 + defaultConfig.min_advance_hours * 60 →
      validate_appointment_time defaultConfig dbEmptyCalendar 0 1 120
        = ValidationResult.rejected RejectReason.tooSoon)
    ∧ ((120 : Int) = 0 + defaultConfig.min_advance_hours * 60 →
      validate_appointment_time defaultConfig dbEmptyCalendar 0 1 120
        ≠ ValidationResult.rejected RejectReason.tooSoon) :=
  c9_advance_notice_boundary defaultConfig dbEmptyCalendar 0 1 120
    ⟨1, 60, true⟩ rfl rfl

end Luminance
